import Mathlib

/-!
Verification of the `freeloader` OpenAI-adapter gateway
(`src/freeloader/openai_adapter/adapter.py` and
`src/freeloader/openai_adapter/cookie_manager.py`) against its
natural-language specification.

The Python code is shallowly embedded: JSON values become an inductive
`Json` type, Python dicts become insertion-ordered association lists with
dict update semantics, HTTP interactions are parameterised by the backend's
response, and exceptions become `Except String`.
-/

set_option autoImplicit false
set_option linter.unusedVariables false

/-- JSON values as manipulated by the adapter (Python objects produced by
`json.load`/`request.json`). Python dicts preserve insertion order, so an
object is an ordered association list. Numbers in the adapter are the
integers `0`, `500`, `1536` and epoch seconds, so `Int` suffices. -/
inductive Json where
  | null : Json
  | bool (b : Bool) : Json
  | num (n : Int) : Json
  | str (s : String) : Json
  | arr (elems : List Json) : Json
  | obj (fields : List (String × Json)) : Json

/-- Python `d[k] = v` on an insertion-ordered dict: replace the value at an
existing key in place, otherwise append the binding at the end. -/
def dictSet {α : Type} (m : List (String × α)) (k : String) (v : α) :
    List (String × α) :=
  match m with
  | [] => [(k, v)]
  | (k₁, v₁) :: rest =>
    if k₁ = k then (k₁, v) :: rest else (k₁, v₁) :: dictSet rest k v

/-- Python `del d[k]` guarded by `if k in d` (deleting when present,
no-op when absent): drop every binding of `k`. -/
def dictDel {α : Type} (m : List (String × α)) (k : String) :
    List (String × α) :=
  m.filter (fun p => p.1 ≠ k)

/-- One session credential as stored by the cookie manager; fields follow
the persisted document shape `{name, value, domain, path, expires, secure,
httpOnly}` (spec §3, §6), with `expires` absent meaning session-lifetime. -/
structure Credential where
  name : String
  value : String
  domain : String
  path : String
  expires : Option Int
  secure : Bool
  httpOnly : Bool
deriving DecidableEq, Repr

/-- In-memory state of `CookieManager.cookies`: a Python dict mapping a
domain string to its list of credential dicts. -/
def CookieStore : Type := List (String × List Credential)

/-- `CookieManager.get_cookies_for_domain` (cookie_manager.py:58-68):
`self.cookies.get(domain, [])`. -/
def get_cookies_for_domain (store : CookieStore) (domain : String) :
    List Credential :=
  (List.lookup domain store).getD []

/-- Serialisation of one credential dict by `json.dump`
(cookie_manager.py:43): the dict's fields in insertion order, `expires`
omitted when absent. -/
def credToJson (c : Credential) : Json :=
  Json.obj
    ([("name", Json.str c.name), ("value", Json.str c.value),
      ("domain", Json.str c.domain), ("path", Json.str c.path)] ++
     (match c.expires with
      | some e => [("expires", Json.num e)]
      | none => []) ++
     [("secure", Json.bool c.secure), ("httpOnly", Json.bool c.httpOnly)])

/-- Parsing one credential dict back out of the JSON document
(`json.load`, cookie_manager.py:31). -/
def credFromJson : Json → Option Credential
  | Json.obj fields =>
    match List.lookup "name" fields, List.lookup "value" fields,
          List.lookup "domain" fields, List.lookup "path" fields,
          List.lookup "secure" fields, List.lookup "httpOnly" fields with
    | some (Json.str n), some (Json.str v), some (Json.str d),
      some (Json.str p), some (Json.bool s), some (Json.bool h) =>
      some { name := n, value := v, domain := d, path := p,
             expires :=
               match List.lookup "expires" fields with
               | some (Json.num e) => some e
               | _ => none,
             secure := s, httpOnly := h }
    | _, _, _, _, _, _ => none
  | _ => none

/-- Parse a JSON array of credential dicts (one domain's entry). -/
def credListFromJson : List Json → Option (List Credential)
  | [] => some []
  | j :: rest =>
    match credFromJson j, credListFromJson rest with
    | some c, some cs => some (c :: cs)
    | _, _ => none

/-- Serialisation of the whole store by `json.dump(self.cookies, f)`
(cookie_manager.py:43): the document is one JSON object mapping each
domain to the array of its credential dicts. -/
def storeToJson (store : CookieStore) : Json :=
  Json.obj (store.map (fun p => (p.1, Json.arr (p.2.map credToJson))))

/-- Parse the field list of the persisted document back into a store. -/
def storeFieldsFromJson : List (String × Json) → Option CookieStore
  | [] => some []
  | (d, Json.arr xs) :: rest =>
    match credListFromJson xs, storeFieldsFromJson rest with
    | some cs, some m => some ((d, cs) :: m)
    | _, _ => none
  | _ => none

/-- `json.load` of the persisted document into the store's dict shape. -/
def storeFromJson : Json → Option CookieStore
  | Json.obj fields => storeFieldsFromJson fields
  | _ => none

/-- `CookieManager._load_cookies` (cookie_manager.py:26-36): missing file
(`none`) yields an empty store; a document that does not parse is the
logged-error path, also yielding an empty store. -/
def load_cookies (document : Option Json) : CookieStore :=
  match document with
  | none => []
  | some j => (storeFromJson j).getD []

/-- Outcome of the underlying file write attempted by `_save_cookies`. -/
inductive WriteOutcome where
  | ok : WriteOutcome
  | failure (msg : String) : WriteOutcome
deriving DecidableEq, Repr

/-- `CookieManager._save_cookies` (cookie_manager.py:38-45): the write is
wrapped in `try/except Exception`, so a failing write is logged
(`logger.error`) and the method still returns normally. The first
component is the exception behaviour seen by the caller (`Except.error`
would mean an exception propagates), the second the log lines emitted. -/
def save_cookies (w : WriteOutcome) : Except String Unit × List String :=
  match w with
  | WriteOutcome.ok => (Except.ok (), [])
  | WriteOutcome.failure e => (Except.ok (), ["Error saving cookies: " ++ e])

/-- `CookieManager.add_cookies` (cookie_manager.py:47-56):
`self.cookies[domain] = cookies` then `self._save_cookies()`. Returns the
new in-memory state, the exception behaviour seen by the caller, and the
log lines. -/
def add_cookies (store : CookieStore) (domain : String)
    (cookies : List Credential) (w : WriteOutcome) :
    CookieStore × Except String Unit × List String :=
  let store' := dictSet store domain cookies
  let r := save_cookies w
  (store', r.1, r.2)

/-- `CookieManager.clear_cookies` (cookie_manager.py:70-83). Python's
`if domain:` is false both for `None` and for the empty string, so
`clear_cookies("")` takes the else-branch and empties the whole store. -/
def clear_cookies (store : CookieStore) (domain : Option String) :
    CookieStore :=
  match domain with
  | some d => if d ≠ "" then dictDel store d else []
  | none => []

/-- An HTTP response produced by the Flask endpoint: status code and JSON
body (`jsonify(...)` or `jsonify(...), 500`). -/
structure HttpResponse where
  status : Nat
  body : Json

/-- The backend's reply to the gateway's outbound `requests.post`: its
status code and (for the non-streaming paths, where the adapter calls
`response.json()`) its parsed JSON body. -/
structure BackendResp where
  status : Nat
  body : Json

/-- The observable outbound call the adapter makes with `requests.post`:
the headers and the JSON body it forwards. -/
structure OutboundRequest where
  headers : List (String × String)
  body : List (String × Json)

/-- The uniform error envelope built by the endpoint handlers
(adapter.py:80-86, 98-104). -/
def errorEnvelope (msg : String) : Json :=
  Json.obj [("error",
    Json.obj [("message", Json.str msg), ("type", Json.str "server_error"),
              ("code", Json.num 500)])]

/-- The `Cookie` header value (adapter.py:164):
`'; '.join([f"\x7bc['name']\x7d=\x7bc['value']\x7d" for c in cookies])`. -/
def cookieHeaderValue (cookies : List Credential) : String :=
  String.intercalate "; " (cookies.map (fun c => c.name ++ "=" ++ c.value))

/-- Header construction (adapter.py:158-164): start from the JSON
content type; `if cookies:` (true exactly for a non-empty list) add the
`Cookie` header. -/
def buildHeaders (cookies : List Credential) : List (String × String) :=
  let base := [("Content-Type", "application/json")]
  if cookies ≠ [] then base ++ [("Cookie", cookieHeaderValue cookies)]
  else base

/-- The static model-name table of `_map_model_for_chatgpt_adapter`
(adapter.py:210-216). -/
def model_mapping : List (String × String) :=
  [("gpt-3.5-turbo", "gpt-3.5-turbo"), ("gpt-4", "gpt-4"),
   ("claude-3-opus", "claude-3"), ("claude-3-sonnet", "claude-3")]

/-- `OpenAIAdapter._map_model_for_chatgpt_adapter` (adapter.py:206-217):
`model_mapping.get(model, model)`. -/
def _map_model_for_chatgpt_adapter (model : String) : String :=
  (List.lookup model model_mapping).getD model

/-- `data.get('model', 'gpt-3.5-turbo')` (adapter.py:145, 229): the raw
`model` field of the request body, defaulting when the key is absent. -/
def requestModelField (data : List (String × Json)) : Json :=
  (List.lookup "model" data).getD (Json.str "gpt-3.5-turbo")

/-- `_map_model_for_chatgpt_adapter` applied to the raw field value: for a
string the table is consulted; any other value is not a key of the
string-keyed table, so `dict.get(model, model)` returns it unchanged. -/
def mapModelJson : Json → Json
  | Json.str s => Json.str (_map_model_for_chatgpt_adapter s)
  | j => j

/-- The body forwarded to the chatgpt-adapter backend (adapter.py:190-192):
`data['model'] = self._map_model_for_chatgpt_adapter(model)` mutates the
request dict before `requests.post(..., json=data, ...)`. -/
def forwardedChatgptBody (data : List (String × Json)) :
    List (String × Json) :=
  dictSet data "model" (mapModelJson (requestModelField data))

/-- `OpenAIAdapter._process_with_ai_gateway` (adapter.py:154-176): build
headers, forward `data` unchanged, then `raise Exception(f"Backend error:
\x7bresponse.status_code\x7d")` when the status is not 200, else return
`response.json()`. First component: the outbound call; second: the
returned value or raised exception. -/
def _process_with_ai_gateway (cookies : List Credential)
    (data : List (String × Json)) (resp : BackendResp) :
    OutboundRequest × Except String Json :=
  (⟨buildHeaders cookies, data⟩,
   if resp.status ≠ 200 then
     Except.error ("Backend error: " ++ toString resp.status)
   else Except.ok resp.body)

/-- `OpenAIAdapter._process_with_chatgpt_adapter` (adapter.py:178-204):
same as the ai-gateway path except the forwarded body's `model` field is
remapped first. -/
def _process_with_chatgpt_adapter (model : Json) (cookies : List Credential)
    (data : List (String × Json)) (resp : BackendResp) :
    OutboundRequest × Except String Json :=
  (⟨buildHeaders cookies, dictSet data "model" (mapModelJson model)⟩,
   if resp.status ≠ 200 then
     Except.error ("Backend error: " ++ toString resp.status)
   else Except.ok resp.body)

/-- `OpenAIAdapter._process_completion_request` (adapter.py:135-152):
extract `model` (with default) and dispatch on the backend; every backend
string other than `"ai-gateway"` takes the chatgpt-adapter branch. -/
def _process_completion_request (backend : String)
    (cookies : List Credential) (data : List (String × Json))
    (resp : BackendResp) : OutboundRequest × Except String Json :=
  if backend = "ai-gateway" then _process_with_ai_gateway cookies data resp
  else _process_with_chatgpt_adapter (requestModelField data) cookies data resp

/-- The non-streaming arm of the `/v1/chat/completions` endpoint
(adapter.py:62-86): `jsonify(response)` on success; on any exception the
500 error envelope carrying `str(e)`. -/
def chat_completions_nonstream (backend : String)
    (cookies : List Credential) (data : List (String × Json))
    (resp : BackendResp) : HttpResponse :=
  match (_process_completion_request backend cookies data resp).2 with
  | Except.ok j => ⟨200, j⟩
  | Except.error e => ⟨500, errorEnvelope e⟩

/-- The relay loop of `_stream_response` (adapter.py:260-262):
`for line in response.iter_lines(): if line: yield f"\x7bline\x7d\n\n"`.
Lines are the backend's decoded wire lines; the falsy check drops exactly
the empty ones. -/
def relayLines : List String → List String
  | [] => []
  | line :: rest =>
    if line ≠ "" then (line ++ "\n\n") :: relayLines rest
    else relayLines rest

/-- `OpenAIAdapter._stream_response`, response-side (adapter.py:252-262):
on a non-200 connect, exactly one synthetic error frame; otherwise the
relay loop over the backend's lines. -/
def _stream_response (status : Nat) (lines : List String) : List String :=
  if status ≠ 200 then
    ["data: \x7b\"error\": \x7b\"message\": \"Backend error: " ++
      toString status ++ "\"\x7d\x7d\n\n"]
  else relayLines lines

/-- One model descriptor dict as built in `_get_available_models`
(adapter.py:106-133); `created` is `int(time.time())`, passed in as
`now`. -/
def modelDescriptor (id owner : String) (now : Int) : Json :=
  Json.obj [("id", Json.str id), ("object", Json.str "model"),
            ("created", Json.num now), ("owned_by", Json.str owner)]

/-- `OpenAIAdapter._get_available_models` (adapter.py:106-133): the
ai-gateway list for backend `"ai-gateway"`; the chatgpt-adapter list for
every other backend string. -/
def _get_available_models (backend : String) (now : Int) : List Json :=
  if backend = "ai-gateway" then
    [modelDescriptor "gpt-3.5-turbo" "openai" now,
     modelDescriptor "gpt-4" "openai" now,
     modelDescriptor "claude-3-opus" "anthropic" now,
     modelDescriptor "claude-3-sonnet" "anthropic" now,
     modelDescriptor "gemini-pro" "google" now]
  else
    [modelDescriptor "gpt-3.5-turbo" "openai" now,
     modelDescriptor "gpt-4" "openai" now,
     modelDescriptor "claude-3" "anthropic" now,
     modelDescriptor "coze" "coze" now,
     modelDescriptor "deepseek" "deepseek" now,
     modelDescriptor "cursor" "cursor" now,
     modelDescriptor "windsurf" "windsurf" now,
     modelDescriptor "qodo" "qodo" now,
     modelDescriptor "blackbox" "blackbox" now,
     modelDescriptor "you" "you.com" now,
     modelDescriptor "grok" "xai" now,
     modelDescriptor "bing" "microsoft" now]

/-- The `/v1/models` endpoint (adapter.py:56-60):
`jsonify(\x7b"object": "list", "data": models\x7d)`. -/
def list_models (backend : String) (now : Int) : HttpResponse :=
  ⟨200, Json.obj [("object", Json.str "list"),
                  ("data", Json.arr (_get_available_models backend now))]⟩

/-- The mock embedding response synthesized for backends without
embedding support (adapter.py:298-312): `[0.0] * 1536` and zero usage. -/
def mockEmbeddingResponse (data : List (String × Json)) : Json :=
  Json.obj
    [("object", Json.str "list"),
     ("data", Json.arr
       [Json.obj [("object", Json.str "embedding"),
                  ("embedding", Json.arr (List.replicate 1536 (Json.num 0))),
                  ("index", Json.num 0)]]),
     ("model",
       (List.lookup "model" data).getD (Json.str "text-embedding-ada-002")),
     ("usage", Json.obj [("prompt_tokens", Json.num 0),
                         ("total_tokens", Json.num 0)])]

/-- `OpenAIAdapter._process_embedding_request` (adapter.py:264-312):
forward to ai-gateway with the 200-check; any other backend gets the
synthesized mock response. -/
def _process_embedding_request (backend : String)
    (cookies : List Credential) (data : List (String × Json))
    (resp : BackendResp) : Except String Json :=
  if backend = "ai-gateway" then
    if resp.status ≠ 200 then
      Except.error ("Backend error: " ++ toString resp.status)
    else Except.ok resp.body
  else Except.ok (mockEmbeddingResponse data)

/-- The `/v1/embeddings` endpoint (adapter.py:88-104). -/
def embeddings_endpoint (backend : String) (cookies : List Credential)
    (data : List (String × Json)) (resp : BackendResp) : HttpResponse :=
  match _process_embedding_request backend cookies data resp with
  | Except.ok j => ⟨200, j⟩
  | Except.error e => ⟨500, errorEnvelope e⟩

/-- Field access on a JSON object (observer used to state properties). -/
def objLookup : Json → String → Option Json
  | Json.obj fields, k => List.lookup k fields
  | _, _ => none

/-- The embedding vector of the first element of an embedding response's
`data` array (observer used to state properties). -/
def embeddingVectorOf (j : Json) : Option (List Json) :=
  match objLookup j "data" with
  | some (Json.arr (e :: _)) =>
    match objLookup e "embedding" with
    | some (Json.arr v) => some v
    | _ => none
  | _ => none

/-- The `usage.total_tokens` field of a response (observer used to state
properties). -/
def totalTokensOf (j : Json) : Option Json :=
  match objLookup j "usage" with
  | some u => objLookup u "total_tokens"
  | none => none

theorem lookup_dictSet {α : Type} (m : List (String × α)) (k : String)
    (v : α) : List.lookup k (dictSet m k v) = some v := by
  induction m with
  | nil => simp [dictSet, List.lookup]
  | cons p rest ih =>
    obtain ⟨k₁, v₁⟩ := p
    by_cases h : k₁ = k
    · subst h
      simp [dictSet, List.lookup]
    · have hbeq : (k == k₁) = false := by
        simpa [beq_iff_eq] using Ne.symm h
      simp [dictSet, h, List.lookup, hbeq, ih]

theorem credFromJson_credToJson (c : Credential) :
    credFromJson (credToJson c) = some c := by
  obtain ⟨n, v, d, p, e, s, h⟩ := c
  cases e <;> simp [credToJson, credFromJson, List.lookup]

theorem credListFromJson_map (cs : List Credential) :
    credListFromJson (cs.map credToJson) = some cs := by
  induction cs with
  | nil => simp [credListFromJson]
  | cons c rest ih => simp [credListFromJson, credFromJson_credToJson, ih]

theorem storeFromJson_storeToJson (store : CookieStore) :
    storeFromJson (storeToJson store) = some store := by
  induction store with
  | nil => simp [storeToJson, storeFromJson, storeFieldsFromJson]
  | cons p rest ih =>
    obtain ⟨d, cs⟩ := p
    have ih' : storeFieldsFromJson
        (rest.map (fun p => (p.1, Json.arr (p.2.map credToJson)))) =
        some rest := by
      simpa [storeToJson, storeFromJson] using ih
    simp [storeToJson, storeFromJson, storeFieldsFromJson,
      credListFromJson_map, ih']

theorem lookup_dictDel_self {α : Type} (m : List (String × α)) (k : String) :
    List.lookup k (dictDel m k) = none := by
  induction m with
  | nil => simp [dictDel]
  | cons p rest ih =>
    obtain ⟨k₁, v₁⟩ := p
    by_cases h : k₁ = k
    · simpa [dictDel, h] using ih
    · have hbeq : (k == k₁) = false := by
        simpa [beq_iff_eq] using Ne.symm h
      simpa [dictDel, h, List.lookup, hbeq] using ih

theorem lookup_dictDel_other {α : Type} (m : List (String × α))
    (k k₂ : String) (h : k₂ ≠ k) :
    List.lookup k₂ (dictDel m k) = List.lookup k₂ m := by
  induction m with
  | nil => simp [dictDel]
  | cons p rest ih =>
    obtain ⟨k₁, v₁⟩ := p
    by_cases h₁ : k₁ = k
    · subst h₁
      have hbeq : (k₂ == k₁) = false := by simpa [beq_iff_eq] using h
      simpa [dictDel, List.lookup, hbeq] using ih
    · by_cases h₂ : k₂ = k₁
      · subst h₂
        simp [dictDel, h₁, List.lookup]
      · have hbeq : (k₂ == k₁) = false := by simpa [beq_iff_eq] using h₂
        simpa [dictDel, h₁, List.lookup, hbeq] using ih

/-- C1 counterexample: a backend status of 201 is 2xx, yet the gateway
does not pass the body through; `_process_with_ai_gateway` raises on any
status other than exactly 200, and the endpoint answers 500 with the
error envelope. -/
theorem chat_2xx_not_passed_through_counterexample :
    chat_completions_nonstream "ai-gateway" [] [] ⟨201, Json.obj []⟩ =
      ⟨500, errorEnvelope "Backend error: 201"⟩ ∧
    errorEnvelope "Backend error: 201" ≠ Json.obj [] := by
  exact ⟨rfl, by simp [errorEnvelope]⟩

/-- C1 amended: for every non-streaming chat completion request, a backend
status of exactly 200 has its well-formed JSON body returned unchanged;
any other status (2xx included) makes the processing raise
`Exception("Backend error: <status>")`, which the endpoint maps to HTTP
500 with body `error.message = str(e)`, `error.type = "server_error"`,
`error.code = 500`. -/
theorem chat_nonstream_200_passthrough_else_500 (backend : String)
    (cookies : List Credential) (data : List (String × Json))
    (resp : BackendResp) :
    (resp.status = 200 →
      chat_completions_nonstream backend cookies data resp =
        ⟨200, resp.body⟩) ∧
    (resp.status ≠ 200 →
      chat_completions_nonstream backend cookies data resp =
        ⟨500, errorEnvelope ("Backend error: " ++ toString resp.status)⟩) := by
  unfold chat_completions_nonstream _process_completion_request
    _process_with_ai_gateway _process_with_chatgpt_adapter
  by_cases hb : backend = "ai-gateway" <;>
    by_cases hs : resp.status = 200 <;>
      simp [hb, hs]

/-- C1 witness: a 200 body passes through; a 503 yields the 500
envelope. -/
theorem chat_nonstream_200_passthrough_else_500_witness :
    chat_completions_nonstream "ai-gateway" [] [] ⟨200, Json.null⟩ =
      ⟨200, Json.null⟩ ∧
    chat_completions_nonstream "ai-gateway" [] [] ⟨503, Json.null⟩ =
      ⟨500, errorEnvelope "Backend error: 503"⟩ :=
  ⟨(chat_nonstream_200_passthrough_else_500 "ai-gateway" [] []
      ⟨200, Json.null⟩).1 rfl,
   (chat_nonstream_200_passthrough_else_500 "ai-gateway" [] []
      ⟨503, Json.null⟩).2 (by decide)⟩

/-- C2 counterexample: an unrecognized backend identifier does not yield
an empty model list; it falls into the chatgpt-adapter branch and yields
its 12 descriptors. -/
theorem models_unknown_backend_counterexample :
    (_get_available_models "totally-unknown-backend" 0).length = 12 ∧
    _get_available_models "totally-unknown-backend" 0 =
      _get_available_models "chatgpt-adapter" 0 := by
  exact ⟨by decide, rfl⟩

/-- C2 amended: every backend identifier other than `"ai-gateway"` —
including unrecognized, unconfigured ones — is given the chatgpt-adapter
model list of 12 descriptors (never the empty list), and the endpoint
does not fail: it returns `{object:"list", data: <that list>}`. -/
theorem models_unrecognized_backend_chatgpt_list (b : String) (now : Int)
    (h : b ≠ "ai-gateway") :
    _get_available_models b now =
      _get_available_models "chatgpt-adapter" now ∧
    (_get_available_models b now).length = 12 ∧
    list_models b now =
      ⟨200, Json.obj [("object", Json.str "list"),
                      ("data", Json.arr (_get_available_models b now))]⟩ := by
  refine ⟨?_, ?_, rfl⟩ <;> simp [_get_available_models, h]

/-- C2 witness: the unrecognized identifier "foo". -/
theorem models_unrecognized_backend_chatgpt_list_witness :
    _get_available_models "foo" 0 =
      _get_available_models "chatgpt-adapter" 0 ∧
    (_get_available_models "foo" 0).length = 12 ∧
    list_models "foo" 0 =
      ⟨200, Json.obj [("object", Json.str "list"),
                      ("data", Json.arr (_get_available_models "foo" 0))]⟩ :=
  models_unrecognized_backend_chatgpt_list "foo" 0 (by decide)

/-- C3: on a successfully opened backend stream (status 200), the relay
emits exactly the non-empty backend lines, each verbatim with the SSE
double-newline terminator appended, in the order received — a filter of
the empties followed by a per-line reframing map, so nothing is
reordered, coalesced or synthesized. -/
theorem stream_relay_exact_nonempty_lines_in_order (lines : List String) :
    _stream_response 200 lines =
      (lines.filter (fun l => l != "")).map (fun l => l ++ "\n\n") := by
  have hrelay : ∀ ls : List String, relayLines ls =
      (ls.filter (fun l => l != "")).map (fun l => l ++ "\n\n") := by
    intro ls
    induction ls with
    | nil => rfl
    | cons l rest ih => by_cases h : l = "" <;> simp [relayLines, h, ih]
  simpa [_stream_response] using hrelay lines

/-- C4: for every store state, domain D and credential list C, performing
`add_cookies(D, C)` (with the backing write succeeding, as `put` requires)
and then constructing a fresh store by loading the persisted JSON document
yields exactly C as the credentials for D — round-trip durability through
the serialised document. -/
theorem put_then_fresh_load_roundtrip (store : CookieStore) (d : String)
    (cs : List Credential) :
    get_cookies_for_domain
      (load_cookies
        (some (storeToJson (add_cookies store d cs WriteOutcome.ok).1)))
      d = cs := by
  have h1 : storeFromJson (storeToJson (dictSet store d cs)) =
      some (dictSet store d cs) :=
    storeFromJson_storeToJson _
  simp [load_cookies, add_cookies, h1, get_cookies_for_domain,
    lookup_dictSet]

/-- C5 counterexample: the claim quantifies over every domain string, but
Python's `if domain:` is falsy for the empty string, so
`clear_cookies("")` takes the clear-all branch and erases the other
domain "x" as well. -/
theorem clear_empty_string_domain_counterexample :
    get_cookies_for_domain
      (clear_cookies
        [("", [⟨"a", "1", "", "/", none, false, false⟩]),
         ("x", [⟨"b", "2", "x", "/", none, false, false⟩])]
        (some "")) "x" = [] ∧
    get_cookies_for_domain
      [("", [⟨"a", "1", "", "/", none, false, false⟩]),
       ("x", [⟨"b", "2", "x", "/", none, false, false⟩])] "x" =
      [⟨"b", "2", "x", "/", none, false, false⟩] := by
  exact ⟨rfl, rfl⟩

/-- C5 amended: for every NON-EMPTY domain string D, `clear(D)` removes
only D's entries and leaves every other domain's lookup unchanged;
`clear(None)` — like `clear("")`, which Python's truthiness test sends
down the same branch — empties the entire store. -/
theorem clear_cookies_frame (store : CookieStore) (d d₂ : String)
    (hd : d ≠ "") (hneq : d₂ ≠ d) :
    get_cookies_for_domain (clear_cookies store (some d)) d = [] ∧
    List.lookup d₂ (clear_cookies store (some d)) =
      List.lookup d₂ store ∧
    clear_cookies store none = [] := by
  refine ⟨?_, ?_, rfl⟩
  · simp [clear_cookies, hd, get_cookies_for_domain, lookup_dictDel_self]
  · simp [clear_cookies, hd, lookup_dictDel_other store d d₂ hneq]

/-- C5 witness: clearing "y" in a two-domain store empties "y", leaves
"x" untouched, and clearing with no domain empties the store. -/
theorem clear_cookies_frame_witness :
    get_cookies_for_domain
      (clear_cookies
        [("x", [⟨"a", "1", "x", "/", none, false, false⟩]),
         ("y", [⟨"b", "2", "y", "/", none, false, false⟩])]
        (some "y")) "y" = [] ∧
    List.lookup "x"
      (clear_cookies
        [("x", [⟨"a", "1", "x", "/", none, false, false⟩]),
         ("y", [⟨"b", "2", "y", "/", none, false, false⟩])]
        (some "y")) =
      List.lookup "x"
        [("x", [⟨"a", "1", "x", "/", none, false, false⟩]),
         ("y", [⟨"b", "2", "y", "/", none, false, false⟩])] ∧
    clear_cookies
      [("x", [⟨"a", "1", "x", "/", none, false, false⟩]),
       ("y", [⟨"b", "2", "y", "/", none, false, false⟩])] none = [] :=
  clear_cookies_frame
    [("x", [⟨"a", "1", "x", "/", none, false, false⟩]),
     ("y", [⟨"b", "2", "y", "/", none, false, false⟩])]
    "y" "x" (by decide) (by decide)

/-- C6: evaluating `add_cookies` at a failing disk write shows the
failure does NOT propagate: `_save_cookies` catches every exception, logs
"Error saving cookies: ...", and `add_cookies` returns normally — the
caller sees success even though nothing was persisted, contradicting the
store's stated contract that put/clear write failures propagate. -/
theorem add_cookies_swallows_write_failure :
    (add_cookies [] "example.com"
      [⟨"session", "tok", "example.com", "/", none, true, true⟩]
      (WriteOutcome.failure "disk full")).2.1 = Except.ok () ∧
    (save_cookies (WriteOutcome.failure "disk full")).2 =
      ["Error saving cookies: disk full"] ∧
    (clear_cookies [] none, save_cookies (WriteOutcome.failure "disk full")).2.1 =
      Except.ok () := by
  exact ⟨rfl, rfl, rfl⟩

/-- C7: whenever the stored credential list for the backend's domain is
non-empty, the outbound request carries a `Cookie` header equal to the
`name=value` pairs joined by the two-character separator "; " in storage
order, and on the concrete pair [a=1, b=2] that header value is exactly
"a=1; b=2". -/
theorem cookie_header_joined_in_order (cookies : List Credential)
    (data : List (String × Json)) (resp : BackendResp)
    (h : cookies ≠ []) :
    List.lookup "Cookie"
      (_process_with_ai_gateway cookies data resp).1.headers =
      some (String.intercalate "; "
        (cookies.map (fun c => c.name ++ "=" ++ c.value))) ∧
    cookieHeaderValue
      [⟨"a", "1", "d", "/", none, false, false⟩,
       ⟨"b", "2", "d", "/", none, false, false⟩] = "a=1; b=2" := by
  refine ⟨?_, rfl⟩
  simp [_process_with_ai_gateway, buildHeaders, h, List.lookup,
    cookieHeaderValue]

/-- C7 witness: a singleton credential list yields the header "a=1". -/
theorem cookie_header_joined_in_order_witness :
    List.lookup "Cookie"
      (_process_with_ai_gateway
        [⟨"a", "1", "d", "/", none, false, false⟩] [] ⟨200, Json.null⟩).1.headers =
      some (String.intercalate "; "
        ([(⟨"a", "1", "d", "/", none, false, false⟩ : Credential)].map
          (fun c => c.name ++ "=" ++ c.value))) ∧
    cookieHeaderValue
      [⟨"a", "1", "d", "/", none, false, false⟩,
       ⟨"b", "2", "d", "/", none, false, false⟩] = "a=1; b=2" :=
  cookie_header_joined_in_order
    [⟨"a", "1", "d", "/", none, false, false⟩] [] ⟨200, Json.null⟩
    (by simp)

/-- C8: the model remapping is a total function (one output per input by
construction), it is idempotent — applying it twice equals applying it
once — and any name absent from the mapping table maps to itself. -/
theorem map_model_total_idempotent_identity (m : String) :
    _map_model_for_chatgpt_adapter (_map_model_for_chatgpt_adapter m) =
      _map_model_for_chatgpt_adapter m ∧
    (List.lookup m model_mapping = none →
      _map_model_for_chatgpt_adapter m = m) := by
  by_cases h1 : m = "gpt-3.5-turbo"
  · subst h1; exact ⟨rfl, fun _ => rfl⟩
  by_cases h2 : m = "gpt-4"
  · subst h2; exact ⟨rfl, fun _ => rfl⟩
  by_cases h3 : m = "claude-3-opus"
  · subst h3; exact ⟨rfl, fun hc => absurd hc (by decide)⟩
  by_cases h4 : m = "claude-3-sonnet"
  · subst h4; exact ⟨rfl, fun hc => absurd hc (by decide)⟩
  have b1 : (m == "gpt-3.5-turbo") = false := by simpa [beq_iff_eq] using h1
  have b2 : (m == "gpt-4") = false := by simpa [beq_iff_eq] using h2
  have b3 : (m == "claude-3-opus") = false := by simpa [beq_iff_eq] using h3
  have b4 : (m == "claude-3-sonnet") = false := by
    simpa [beq_iff_eq] using h4
  have hnone : List.lookup m model_mapping = none := by
    simp [model_mapping, List.lookup, b1, b2, b3, b4]
  have hid : _map_model_for_chatgpt_adapter m = m := by
    simp [_map_model_for_chatgpt_adapter, hnone]
  exact ⟨by rw [hid, hid], fun _ => hid⟩

/-- C8 witness: the unknown name "mistral-7b" is absent from the table
and maps to itself. -/
theorem map_model_total_idempotent_identity_witness :
    _map_model_for_chatgpt_adapter "mistral-7b" = "mistral-7b" :=
  (map_model_total_idempotent_identity "mistral-7b").2 (by decide)

/-- C9: for every embeddings request when the active backend is not
ai-gateway (the chatgpt-adapter family, which has no embedding support),
the endpoint answers 200 with the synthesized response, whose embedding
vector is exactly 1536 zeros and whose usage.total_tokens is 0. -/
theorem embeddings_zero_vector_fallback (backend : String)
    (cookies : List Credential) (data : List (String × Json))
    (resp : BackendResp) (h : backend ≠ "ai-gateway") :
    embeddings_endpoint backend cookies data resp =
      ⟨200, mockEmbeddingResponse data⟩ ∧
    embeddingVectorOf (mockEmbeddingResponse data) =
      some (List.replicate 1536 (Json.num 0)) ∧
    totalTokensOf (mockEmbeddingResponse data) = some (Json.num 0) := by
  refine ⟨?_, rfl, rfl⟩
  simp [embeddings_endpoint, _process_embedding_request, h]

/-- C9 witness: the chatgpt-adapter backend with an empty request body. -/
theorem embeddings_zero_vector_fallback_witness :
    embeddings_endpoint "chatgpt-adapter" [] [] ⟨200, Json.null⟩ =
      ⟨200, mockEmbeddingResponse []⟩ ∧
    embeddingVectorOf (mockEmbeddingResponse []) =
      some (List.replicate 1536 (Json.num 0)) ∧
    totalTokensOf (mockEmbeddingResponse []) = some (Json.num 0) :=
  embeddings_zero_vector_fallback "chatgpt-adapter" [] [] ⟨200, Json.null⟩
    (by decide)

/-- C10: a chat request body with no "model" field is not rejected — the
gateway substitutes the default "gpt-3.5-turbo"; on the chatgpt-adapter
backend the forwarded body gains a "model" field equal to the remapping
of the default (which is "gpt-3.5-turbo" itself), and with a healthy
backend the request completes normally. -/
theorem missing_model_defaulted (cookies : List Credential)
    (data : List (String × Json)) (resp : BackendResp)
    (h : List.lookup "model" data = none) (hs : resp.status = 200) :
    requestModelField data = Json.str "gpt-3.5-turbo" ∧
    List.lookup "model"
      (_process_completion_request "chatgpt-adapter" cookies data resp).1.body =
      some (Json.str (_map_model_for_chatgpt_adapter "gpt-3.5-turbo")) ∧
    _map_model_for_chatgpt_adapter "gpt-3.5-turbo" = "gpt-3.5-turbo" ∧
    chat_completions_nonstream "chatgpt-adapter" cookies data resp =
      ⟨200, resp.body⟩ := by
  have hm : requestModelField data = Json.str "gpt-3.5-turbo" := by
    simp [requestModelField, h]
  refine ⟨hm, ?_, rfl, ?_⟩
  · simp [_process_completion_request, _process_with_chatgpt_adapter, hm,
      mapModelJson, lookup_dictSet]
  · simp [chat_completions_nonstream, _process_completion_request,
      _process_with_chatgpt_adapter, hs]

/-- C10 witness: a body containing only "messages". -/
theorem missing_model_defaulted_witness :
    requestModelField [("messages", Json.arr [])] =
      Json.str "gpt-3.5-turbo" ∧
    List.lookup "model"
      (_process_completion_request "chatgpt-adapter" []
        [("messages", Json.arr [])] ⟨200, Json.null⟩).1.body =
      some (Json.str (_map_model_for_chatgpt_adapter "gpt-3.5-turbo")) ∧
    _map_model_for_chatgpt_adapter "gpt-3.5-turbo" = "gpt-3.5-turbo" ∧
    chat_completions_nonstream "chatgpt-adapter" []
      [("messages", Json.arr [])] ⟨200, Json.null⟩ = ⟨200, Json.null⟩ :=
  missing_model_defaulted [] [("messages", Json.arr [])] ⟨200, Json.null⟩
    rfl rfl
